import Mathlib

/-!
Shallow embedding of `upload_youtube.py`: an OAuth-credentialed, resumable
chunked YouTube uploader with a CLI front end.  Python truthiness on
optional strings, the credential-store / authorization-server / upload
interactions, and the exceptions that each function can raise are made
explicit.  External collaborators (the network, the token pickle file, the
OAuth flows) are modelled as an explicit environment; every externally
visible action is recorded in an effect trace.
-/

/-- Python truthiness of an optional string: `None` and `""` are falsy. -/
def optTruthy : Option String → Bool
  | some s => !s.isEmpty
  | none => false

/-- A stored OAuth credential as the source reads it (`creds.expired`,
`creds.refresh_token`).  The access token is always present, so the
google-auth `valid` property reduces to non-expiry (see `Credential.valid`). -/
structure Credential where
  accessToken : String
  refreshToken : Option String
  expired : Bool
deriving DecidableEq, Repr

/-- Modelled from the external google-auth library, matching the spec data
model: a credential holding a token is `valid` exactly when it is not
expired. -/
def Credential.valid (c : Credential) : Bool := !c.expired

/-- Externally visible actions of `get_service`: the token-store read
(`_load_token`), a refresh call to the authorization server
(`creds.refresh(Request())`), a token-store write (`_save_token`), and the
two interactive flow attempts (`run_local_server`, `run_console`). -/
inductive AuthEffect where
  | loadToken : AuthEffect
  | refreshCall : AuthEffect
  | saveToken (c : Credential) : AuthEffect
  | flowLocalServer : AuthEffect
  | flowConsole : AuthEffect
deriving DecidableEq, Repr

def AuthEffect.isSave : AuthEffect → Bool
  | AuthEffect.saveToken _ => true
  | _ => false

def AuthEffect.isRefresh : AuthEffect → Bool
  | AuthEffect.refreshCall => true
  | _ => false

def AuthEffect.isLocalFlow : AuthEffect → Bool
  | AuthEffect.flowLocalServer => true
  | _ => false

def AuthEffect.isConsoleFlow : AuthEffect → Bool
  | AuthEffect.flowConsole => true
  | _ => false

/-- Exceptions `get_service` can let escape: the `FileNotFoundError` for a
missing client-secrets file, an uncaught refresh failure (second refresh,
line 45 of the source, outside any `try`), and an uncaught failure of the
console flow. -/
inductive AuthError where
  | missingClientSecrets : AuthError
  | refreshRaised : AuthError
  | consoleRaised : AuthError
deriving DecidableEq, Repr

/-- The world `get_service` interacts with: the token store's content, the
existence of the client-secrets file, and the (deterministic) outcomes of
the refresh call and the two interactive flows (`none` means the call
raises). -/
structure AuthEnv where
  storedToken : Option Credential
  secretsExists : Bool
  refreshOutcome : Option Credential
  localServerOutcome : Option Credential
  consoleOutcome : Option Credential

/-- Lines 48-59 of the source: check for the client-secrets file, then run
the local-server flow, falling back to the console flow, and persist the
obtained credential. -/
def authFlowBranch (env : AuthEnv) : Except AuthError Credential × List AuthEffect :=
  if !env.secretsExists then
    (Except.error AuthError.missingClientSecrets, [])
  else
    match env.localServerOutcome with
    | some c => (Except.ok c, [AuthEffect.flowLocalServer, AuthEffect.saveToken c])
    | none =>
      match env.consoleOutcome with
      | some c =>
        (Except.ok c,
          [AuthEffect.flowLocalServer, AuthEffect.flowConsole, AuthEffect.saveToken c])
      | none =>
        (Except.error AuthError.consoleRaised,
          [AuthEffect.flowLocalServer, AuthEffect.flowConsole])

/-- Lines 35-41 of the source: load the token and, if it is expired with a
truthy refresh token, try one refresh inside `try/except`, persisting on
success and discarding the credential (`creds = None`) on failure. -/
def firstBlock (env : AuthEnv) : Option Credential × List AuthEffect :=
  match env.storedToken with
  | some c =>
    if c.expired && optTruthy c.refreshToken then
      match env.refreshOutcome with
      | some c1 => (some c1, [AuthEffect.refreshCall, AuthEffect.saveToken c1])
      | none => (none, [AuthEffect.refreshCall])
    else (some c, [])
  | none => (none, [])

/-- Lines 43-59 of the source: if the credential is absent or not valid,
either refresh once more (this time outside any `try`) or fall into the
interactive-flow branch. -/
def secondBlock (env : AuthEnv) (creds : Option Credential) :
    Except AuthError Credential × List AuthEffect :=
  match creds with
  | some c =>
    if c.valid then (Except.ok c, [])
    else if c.expired && optTruthy c.refreshToken then
      match env.refreshOutcome with
      | some c1 => (Except.ok c1, [AuthEffect.refreshCall, AuthEffect.saveToken c1])
      | none => (Except.error AuthError.refreshRaised, [AuthEffect.refreshCall])
    else authFlowBranch env
  | none => authFlowBranch env

/-- `get_service` (lines 34-61): obtain a usable credential, recording every
store/network interaction.  The returned credential stands for the built
service object. -/
def get_service (env : AuthEnv) : Except AuthError Credential × List AuthEffect :=
  let fb := firstBlock env
  let sb := secondBlock env fb.1
  (sb.1, AuthEffect.loadToken :: (fb.2 ++ sb.2))

/-- The `status` dict of the request body (lines 120-128). -/
structure StatusBody where
  privacyStatus : String
  publishAt : Option String
  madeForKids : Option Bool
deriving DecidableEq, Repr

/-- The `snippet` dict of the request body (lines 131-136). -/
structure Snippet where
  title : String
  description : String
  tags : List String
  categoryId : String
deriving DecidableEq, Repr

/-- The insert-request body (lines 130-138). -/
structure Body where
  snippet : Snippet
  status : StatusBody
deriving DecidableEq, Repr

/-- Lines 120-128: build the `status` dict.  `publishAt` is attached only
when `publish_at` is truthy, in which case a non-`"private"`
`privacyStatus` is overwritten with `"private"`; `madeForKids` is attached
when the argument is not `None`. -/
def buildStatus (privacy_status : String) (publish_at : Option String)
    (made_for_kids : Option Bool) : StatusBody :=
  let st0 : StatusBody :=
    { privacyStatus := privacy_status, publishAt := none, madeForKids := none }
  let st1 :=
    match publish_at with
    | some s =>
      if s.isEmpty then st0
      else
        let stA := { st0 with publishAt := some s }
        if privacy_status ≠ "private" then { stA with privacyStatus := "private" }
        else stA
    | none => st0
  match made_for_kids with
  | some b => { st1 with madeForKids := some b }
  | none => st1

/-- The upload loop's progress bookkeeping (lines 150-156): each chunk
acknowledgment optionally carries `int(status.progress() * 100)`; a value
is emitted (and `last_progress` advanced) only when it strictly exceeds
the last emitted value.  Returns the emitted percentages in order. -/
def uploadLoop : List (Option Nat) → Nat → List Nat
  | [], _ => []
  | none :: rest, last => uploadLoop rest last
  | some p :: rest, last =>
    if last < p then p :: uploadLoop rest p
    else uploadLoop rest last

/-- How the chunk loop terminates: a final (terminal) response dict, or an
HTTP error raised by `next_chunk`. -/
inductive ChunkOutcome where
  | finalResponse (resp : List (String × String)) : ChunkOutcome
  | raiseHttp (msg : String) : ChunkOutcome

/-- Externally visible actions of `upload_video`: the credential steps, the
insert request carrying the metadata body, each progress emission, and the
two post-upload calls. -/
inductive UpEffect where
  | auth (e : AuthEffect) : UpEffect
  | insertRequest (body : Body) : UpEffect
  | progressEmit (percent : Nat) : UpEffect
  | thumbnailSet (videoId : String) : UpEffect
  | playlistInsert (playlistId videoId : String) : UpEffect
deriving DecidableEq, Repr

def UpEffect.isPost : UpEffect → Bool
  | UpEffect.thumbnailSet _ => true
  | UpEffect.playlistInsert _ _ => true
  | _ => false

/-- Exceptions `upload_video` can raise: missing video file
(`FileNotFoundError`), anything escaping `get_service`, the malformed
terminal response (`RuntimeError`), and an `HttpError` from the chunk
loop. -/
inductive UpError where
  | fileNotFound (msg : String) : UpError
  | auth (e : AuthError) : UpError
  | protocol (resp : List (String × String)) : UpError
  | http (msg : String) : UpError
deriving DecidableEq, Repr

/-- The keyword parameters of `upload_video` (lines 103-113). -/
structure UploadParams where
  file_path : String
  title : String
  description : String
  tags : Option (List String)
  category_id : String
  privacy_status : String
  thumbnail_path : Option String
  playlist_id : Option String
  publish_at : Option String
  made_for_kids : Option Bool

/-- The world `upload_video` interacts with: file existence, the
authorization environment, the chunk acknowledgments observed by the loop,
and how the loop terminates. -/
structure UploadEnv where
  fileExists : String → Bool
  auth : AuthEnv
  chunkAcks : List (Option Nat)
  chunkOutcome : ChunkOutcome

/-- Dict key lookup (`"id" in response`, `response["id"]`). -/
def lookupKey (k : String) : List (String × String) → Option String
  | [] => none
  | kv :: rest => if kv.1 == k then some kv.2 else lookupKey k rest

/-- The metadata body built at lines 130-138 (`description or ""` and
`tags or []` supply defaults for falsy arguments). -/
def uploadBody (p : UploadParams) : Body :=
  { snippet :=
      { title := p.title
        description := p.description
        tags := p.tags.getD []
        categoryId := p.category_id }
    status := buildStatus p.privacy_status p.publish_at p.made_for_kids }

/-- Lines 164-165: the thumbnail call happens when `thumbnail_path` is
truthy and names an existing file. -/
def thumbEffects (env : UploadEnv) (p : UploadParams) (vid : String) : List UpEffect :=
  match p.thumbnail_path with
  | some t => if !t.isEmpty && env.fileExists t then [UpEffect.thumbnailSet vid] else []
  | none => []

/-- Lines 167-176: the playlist-insert call happens when `playlist_id` is
truthy. -/
def playlistEffects (p : UploadParams) (vid : String) : List UpEffect :=
  match p.playlist_id with
  | some pl => if !pl.isEmpty then [UpEffect.playlistInsert pl vid] else []
  | none => []

/-- `upload_video` (lines 103-178): validate the file, obtain a service,
build the body, negotiate and stream the upload while emitting progress,
reject a terminal response without `"id"`, then run the optional
post-upload calls.  Returns the result together with the effect trace. -/
def upload_video (env : UploadEnv) (p : UploadParams) :
    Except UpError String × List UpEffect :=
  if !env.fileExists p.file_path then
    (Except.error (UpError.fileNotFound ("Video file not found: " ++ p.file_path)), [])
  else
    match get_service env.auth with
    | (Except.error e, atr) => (Except.error (UpError.auth e), atr.map UpEffect.auth)
    | (Except.ok _creds, atr) =>
      let body := uploadBody p
      let emits := uploadLoop env.chunkAcks 0
      let tr0 := atr.map UpEffect.auth ++ [UpEffect.insertRequest body] ++
        emits.map UpEffect.progressEmit
      match env.chunkOutcome with
      | ChunkOutcome.raiseHttp m => (Except.error (UpError.http m), tr0)
      | ChunkOutcome.finalResponse resp =>
        match lookupKey "id" resp with
        | none => (Except.error (UpError.protocol resp), tr0)
        | some vid =>
          (Except.ok vid, tr0 ++ thumbEffects env p vid ++ playlistEffects p vid)

/-- Modelled from Python `json.loads`, simplified to flat arrays of scalars
(the only shape `_parse_tags` keeps): anything that is not a bracketed
list yields `none`, which in `_parse_tags` coincides with both a decode
error and a non-list value. -/
def jsonListLoads (s : String) : Option (List String) :=
  let t := s.trim
  if t.startsWith "[" && t.endsWith "]" && 2 ≤ t.length then
    let inner := (t.drop 1).dropRight 1
    if inner.trim.isEmpty then some []
    else some ((inner.splitOn ",").map (fun x =>
      let y := x.trim
      if y.startsWith "\"" && y.endsWith "\"" && 2 ≤ y.length then
        (y.drop 1).dropRight 1
      else y))
  else none

/-- `_parse_tags` (lines 64-74): accept a JSON list or a CSV string. -/
def parse_tags (tags_str : Option String) : List String :=
  match tags_str with
  | none => []
  | some s =>
    if s.isEmpty then []
    else
      match jsonListLoads s with
      | some xs => xs
      | none => ((s.splitOn ",").map String.trim).filter (fun t => !t.isEmpty)

/-- A parsed datetime as Python's `datetime` stores it; `tzOffset` is the
UTC offset in minutes, `none` for a naive datetime. -/
structure PyDateTime where
  year : Nat
  month : Nat
  day : Nat
  hour : Nat
  minute : Nat
  second : Nat
  tzOffset : Option Int
deriving DecidableEq, Repr

def digitVal? (c : Char) : Option Nat :=
  if c.isDigit then some (c.toNat - 48) else none

def parse2 : List Char → Option (Nat × List Char)
  | a :: b :: rest =>
    match digitVal? a, digitVal? b with
    | some x, some y => some (10 * x + y, rest)
    | _, _ => none
  | _ => none

def parse4 (cs : List Char) : Option (Nat × List Char) :=
  match parse2 cs with
  | some (x, r) =>
    match parse2 r with
    | some (y, r2) => some (100 * x + y, r2)
    | none => none
  | none => none

def expectChar (c : Char) : List Char → Option (List Char)
  | x :: rest => if x = c then some rest else none
  | [] => none

def parseOffsetMag (cs : List Char) : Option Nat := do
  let (h, r1) ← parse2 cs
  let r2 ← expectChar ':' r1
  let (m, r3) ← parse2 r2
  if r3 = [] ∧ h ≤ 23 ∧ m ≤ 59 then pure (h * 60 + m) else none

def parseOffset (cs : List Char) : Option Int :=
  match cs with
  | '+' :: r => (parseOffsetMag r).map (fun m => Int.ofNat m)
  | '-' :: r => (parseOffsetMag r).map (fun m => -(Int.ofNat m))
  | _ => none

def parseTime (cs : List Char) : Option (Nat × Nat × Nat × Option Int) := do
  let (hh, r1) ← parse2 cs
  let r2 ← expectChar ':' r1
  let (mi, r3) ← parse2 r2
  if 24 ≤ hh ∨ 60 ≤ mi then none
  else
    match r3 with
    | [] => pure (hh, mi, 0, none)
    | ':' :: r4 => do
      let (ss, r5) ← parse2 r4
      if 60 ≤ ss then none
      else
        match r5 with
        | [] => pure (hh, mi, ss, none)
        | _ => do
          let off ← parseOffset r5
          pure (hh, mi, ss, some off)
    | _ => do
      let off ← parseOffset r3
      pure (hh, mi, 0, some off)

def isLeap (y : Nat) : Bool :=
  (y % 4 == 0 && y % 100 != 0) || y % 400 == 0

def daysInMonth (y m : Nat) : Nat :=
  if m = 2 then (if isLeap y then 29 else 28)
  else if m = 4 ∨ m = 6 ∨ m = 9 ∨ m = 11 then 30
  else 31

/-- Modelled from Python `datetime.datetime.fromisoformat` (external
stdlib, 3.7-3.10 grammar): `YYYY-MM-DD`, optionally followed by one
separator character and `HH:MM[:SS]` with an optional `±HH:MM` offset.
Fractional seconds are not modelled. -/
def fromisoformat (s : String) : Option PyDateTime := do
  let (y, r1) ← parse4 s.toList
  let r2 ← expectChar '-' r1
  let (mo, r3) ← parse2 r2
  let r4 ← expectChar '-' r3
  let (d, r5) ← parse2 r4
  if y < 1 ∨ 9999 < y ∨ mo < 1 ∨ 12 < mo ∨ d < 1 ∨ daysInMonth y mo < d then none
  else
    match r5 with
    | [] => pure ⟨y, mo, d, 0, 0, 0, none⟩
    | _sep :: r6 => do
      let (hh, mi, ss, off) ← parseTime r6
      pure ⟨y, mo, d, hh, mi, ss, off⟩

def nextDay (y m d : Nat) : Nat × Nat × Nat :=
  if d < daysInMonth y m then (y, m, d + 1)
  else if m < 12 then (y, m + 1, 1)
  else (y + 1, 1, 1)

def prevDay (y m d : Nat) : Nat × Nat × Nat :=
  if 1 < d then (y, m, d - 1)
  else if 1 < m then (y, m - 1, daysInMonth y (m - 1))
  else (y - 1, 12, 31)

def pad2 (n : Nat) : String := if n < 10 then "0" ++ toString n else toString n

def pad4 (n : Nat) : String :=
  if n < 10 then "000" ++ toString n
  else if n < 100 then "00" ++ toString n
  else if n < 1000 then "0" ++ toString n
  else toString n

def fmtUtc (y m d minOfDay sec : Nat) : String :=
  pad4 y ++ "-" ++ pad2 m ++ "-" ++ pad2 d ++ "T" ++ pad2 (minOfDay / 60) ++ ":" ++
    pad2 (minOfDay % 60) ++ ":" ++ pad2 sec ++ "Z"

/-- Modelled from `astimezone(dt.timezone.utc).isoformat().replace("+00:00", "Z")`
(lines 86 and 95): shift by the UTC offset (a naive datetime first gets
the caller's local offset, as `astimezone()` does) and render as RFC3339
with a `Z` suffix.  Offsets are below 24 hours, so the date moves by at
most one day. -/
def toUtcZ (localOffset : Int) (d : PyDateTime) : String :=
  let off := d.tzOffset.getD localOffset
  let t : Int := Int.ofNat (d.hour * 60 + d.minute) - off
  if t < 0 then
    let ymd := prevDay d.year d.month d.day
    fmtUtc ymd.1 ymd.2.1 ymd.2.2 (t + 1440).toNat d.second
  else if 1440 ≤ t then
    let ymd := nextDay d.year d.month d.day
    fmtUtc ymd.1 ymd.2.1 ymd.2.2 (t - 1440).toNat d.second
  else
    fmtUtc d.year d.month d.day t.toNat d.second

/-- Modelled from Python `str.strip` with no argument: remove leading and
trailing whitespace. -/
def pyStrip (s : String) : String :=
  ⟨((s.data.dropWhile Char.isWhitespace).reverse.dropWhile Char.isWhitespace).reverse⟩

/-- Modelled from Python `str.endswith` for the one-character suffix `"Z"`
used by the source. -/
def pyEndsWithZ (s : String) : Bool :=
  match s.data.reverse with
  | c :: _ => c = 'Z'
  | [] => false

/-- Modelled from Python `str.replace` for the one-character pattern `"Z"`
used by the source: every occurrence is replaced. -/
def pyReplaceZ (s : String) (repl : String) : String :=
  ⟨(s.data.map (fun c => if c = 'Z' then repl.data else [c])).flatten⟩

def publishAtErrMsg : String :=
  "publish_at format invalid. Use YYYY-MM-DD HH:MM (local), YYYY-MM-DDTHH:MM:SS with timezone, or RFC3339 Z."

/-- `_parse_publish_at` (lines 77-100): a falsy argument yields `None`; a
string ending in `Z` has `Z` replaced by `+00:00` before parsing; any
parse failure raises `ValueError`; the result is normalised to a UTC
RFC3339 string (`localOffset` is the process-local UTC offset in minutes
used for naive datetimes). -/
def parse_publish_at (localOffset : Int) (publish_at : Option String) :
    Except String (Option String) :=
  match publish_at with
  | none => Except.ok none
  | some s0 =>
    if s0.isEmpty then Except.ok none
    else
      let s := pyStrip s0
      if pyEndsWithZ s then
        match fromisoformat (pyReplaceZ s "+00:00") with
        | some d => Except.ok (some (toUtcZ localOffset d))
        | none => Except.error publishAtErrMsg
      else
        -- the source's `"T" in s` and naive branches both call
        -- `fromisoformat(s)`; naive results pick up the local offset in
        -- `toUtcZ`.
        match fromisoformat s with
        | some d => Except.ok (some (toUtcZ localOffset d))
        | none => Except.error publishAtErrMsg

/-- Python exceptions as `main` distinguishes them: only `HttpError` is
caught (line 253); everything else escapes and aborts the process with a
traceback. -/
inductive PyExc where
  | valueError (msg : String) : PyExc
  | fileNotFound (msg : String) : PyExc
  | runtimeError (resp : List (String × String)) : PyExc
  | httpError (msg : String) : PyExc
  | authExc (e : AuthError) : PyExc
  | metadataLoadFailed : PyExc
deriving DecidableEq, Repr

/-- The keys of the metadata file that `pick` consults (lines 223-232);
`none` means the key is absent from the file. -/
structure MetaDict where
  file : Option String
  title : Option String
  description : Option String
  tags : Option String
  category_id : Option String
  privacy : Option String
  thumbnail : Option String
  playlist_id : Option String
  publish_at : Option String
  made_for_kids : Option Bool

def emptyMeta : MetaDict :=
  { file := none, title := none, description := none, tags := none,
    category_id := none, privacy := none, thumbnail := none,
    playlist_id := none, publish_at := none, made_for_kids := none }

/-- The parsed CLI flags (lines 194-206) with their argparse defaults. -/
structure Args where
  file : Option String
  title : Option String
  description : String
  tags : String
  category_id : String
  privacy : String
  thumbnail : Option String
  playlist_id : Option String
  publish_at : Option String
  made_for_kids : Bool
  metadata : Option String

/-- The `pick` helper (lines 220-221) for flags parsed as optional strings:
`meta.get(name, getattr(args, name))` — a key present in the metadata file
wins over the flag. -/
def pick (metaVal : Option String) (argVal : Option String) : Option String :=
  match metaVal with
  | some v => some v
  | none => argVal

/-- The `pick` helper for flags with a string default (description, tags,
category, privacy): the flag value is used only when the metadata file
omits the key. -/
def pickStr (metaVal : Option String) (argVal : String) : String :=
  match metaVal with
  | some v => v
  | none => argVal

/-- The field values `main` resolves at lines 223-232. -/
structure Resolved where
  file : Option String
  title : Option String
  description : String
  tags : String
  category_id : String
  privacy : String
  thumbnail : Option String
  playlist_id : Option String
  publish_at : Option String
  made_for_kids : Bool

/-- Lines 223-232: resolve every field through `pick`
(`made_for_kids` uses `meta.get("made_for_kids", args.made_for_kids)`). -/
def resolveFields (meta : MetaDict) (args : Args) : Resolved :=
  { file := pick meta.file args.file
    title := pick meta.title args.title
    description := pickStr meta.description args.description
    tags := pickStr meta.tags args.tags
    category_id := pickStr meta.category_id args.category_id
    privacy := pickStr meta.privacy args.privacy
    thumbnail := pick meta.thumbnail args.thumbnail
    playlist_id := pick meta.playlist_id args.playlist_id
    publish_at := pick meta.publish_at args.publish_at
    made_for_kids := meta.made_for_kids.getD args.made_for_kids }

/-- How exceptions escaping `upload_video` look to `main`'s caller. -/
def upErrToExc : UpError → PyExc
  | UpError.fileNotFound m => PyExc.fileNotFound m
  | UpError.auth e => PyExc.authExc e
  | UpError.protocol r => PyExc.runtimeError r
  | UpError.http m => PyExc.httpError m

/-- Line 238: `_parse_publish_at(publish_at_input) if publish_at_input else
None`; a parse failure is an uncaught `ValueError` (the call sits outside
the `try` of lines 240-255). -/
def resolvePublish (localOffset : Int) (inp : Option String) :
    Except PyExc (Option String) :=
  if optTruthy inp then
    match parse_publish_at localOffset inp with
    | Except.ok v => Except.ok v
    | Except.error m => Except.error (PyExc.valueError m)
  else Except.ok none

/-- The `upload_video` call arguments built at lines 241-252. -/
def mainParams (r : Resolved) (pa : Option String) : UploadParams :=
  { file_path := r.file.getD ""
    title := r.title.getD ""
    description := r.description
    tags := some (parse_tags (some r.tags))
    category_id := r.category_id
    privacy_status := r.privacy
    thumbnail_path := r.thumbnail
    playlist_id := r.playlist_id
    publish_at := pa
    made_for_kids := some r.made_for_kids }

/-- The world `main` interacts with beyond `upload_video`: the metadata
file load result and the local UTC offset. -/
structure MainEnv where
  upload : UploadEnv
  metadataLoad : Except PyExc MetaDict
  localOffset : Int

/-- How an invocation of `main` terminates: an explicit `sys.exit`, an
uncaught exception (process aborts with a traceback), or normal return
after printing the video id (process exit 0). -/
inductive MainOutcome where
  | exitCode (n : Nat) : MainOutcome
  | uncaught (e : PyExc) : MainOutcome
  | success (videoId : String) : MainOutcome
deriving DecidableEq, Repr

/-- Lines 216-218: the metadata dict is loaded only when `--metadata` is
truthy; `load_metadata` may raise (missing file, parse error). -/
def mainMeta (env : MainEnv) (args : Args) : Except PyExc MetaDict :=
  if optTruthy args.metadata then env.metadataLoad else Except.ok emptyMeta

/-- `main` (lines 192-257): resolve fields, exit 2 when `file` or `title`
is falsy, parse `publish_at` (uncaught `ValueError` on malformed input),
call `upload_video` catching only `HttpError` (exit 1), and otherwise
report success. -/
def main' (env : MainEnv) (args : Args) : MainOutcome :=
  match mainMeta env args with
  | Except.error e => MainOutcome.uncaught e
  | Except.ok meta =>
    let r := resolveFields meta args
    if !optTruthy r.file || !optTruthy r.title then MainOutcome.exitCode 2
    else
      match resolvePublish env.localOffset r.publish_at with
      | Except.error e => MainOutcome.uncaught e
      | Except.ok pa =>
        match (upload_video env.upload (mainParams r pa)).1 with
        | Except.ok vid => MainOutcome.success vid
        | Except.error (UpError.http _) => MainOutcome.exitCode 1
        | Except.error e => MainOutcome.uncaught (upErrToExc e)

/-! ## Helper lemmas -/

theorem uploadLoop_mem_gt (acks : List (Option Nat)) :
    ∀ last x, x ∈ uploadLoop acks last → last < x := by
  induction acks with
  | nil => intro last x h; simp [uploadLoop] at h
  | cons a rest ih =>
    intro last x h
    cases a with
    | none => exact ih last x h
    | some p =>
      simp only [uploadLoop] at h
      by_cases hc : last < p
      · rw [if_pos hc] at h
        rcases List.mem_cons.mp h with h1 | h2
        · exact h1 ▸ hc
        · exact lt_trans hc (ih p x h2)
      · rw [if_neg hc] at h
        exact ih last x h

theorem uploadLoop_chain (acks : List (Option Nat)) :
    ∀ last, List.Chain' (· < ·) (uploadLoop acks last) := by
  induction acks with
  | nil => intro last; simp [uploadLoop]
  | cons a rest ih =>
    intro last
    cases a with
    | none => exact ih last
    | some p =>
      simp only [uploadLoop]
      by_cases hc : last < p
      · rw [if_pos hc]
        refine List.chain'_cons'.mpr ⟨?_, ih p⟩
        intro y hy
        exact uploadLoop_mem_gt rest p y (List.mem_of_mem_head? hy)
      · rw [if_neg hc]; exact ih last

theorem mem_thumbEffects (env : UploadEnv) (p : UploadParams) (vid : String)
    (e : UpEffect) (h : e ∈ thumbEffects env p vid) : e = UpEffect.thumbnailSet vid := by
  unfold thumbEffects at h
  split at h
  · split at h
    · simpa using h
    · simp at h
  · simp at h

theorem mem_playlistEffects (p : UploadParams) (vid : String) (e : UpEffect)
    (h : e ∈ playlistEffects p vid) :
    ∃ pl, e = UpEffect.playlistInsert pl vid := by
  unfold playlistEffects at h
  split at h
  · split at h
    · exact ⟨_, by simpa using h⟩
    · simp at h
  · simp at h

theorem insertRequest_mem (env : UploadEnv) (p : UploadParams) (b : Body)
    (h : UpEffect.insertRequest b ∈ (upload_video env p).2) : b = uploadBody p := by
  rcases hgs : get_service env.auth with ⟨res, atr⟩
  by_cases hf : env.fileExists p.file_path
  · cases res with
    | error e =>
      simp [upload_video, hf, hgs, List.mem_map] at h
    | ok c =>
      cases hco : env.chunkOutcome with
      | raiseHttp m =>
        simp [upload_video, hf, hgs, hco, List.mem_append, List.mem_map] at h
        exact h
      | finalResponse resp =>
        cases hlk : lookupKey "id" resp with
        | none =>
          simp [upload_video, hf, hgs, hco, hlk, List.mem_append, List.mem_map] at h
          exact h
        | some vid =>
          simp [upload_video, hf, hgs, hco, hlk, List.mem_append, List.mem_map] at h
          rcases h with h | h | h
          · exact h
          · exact absurd (mem_thumbEffects env p vid _ h)
              (by rintro hx; exact UpEffect.noConfusion hx)
          · rcases mem_playlistEffects p vid _ h with ⟨pl, hx⟩
            exact UpEffect.noConfusion hx
  · simp [upload_video, hf] at h

theorem countP_isPost_auth (l : List AuthEffect) :
    (l.map UpEffect.auth).countP UpEffect.isPost = 0 := by
  rw [List.countP_map]
  exact List.countP_eq_zero.mpr (fun a _ => by simp [Function.comp, UpEffect.isPost])

theorem countP_isPost_emit (l : List Nat) :
    (l.map UpEffect.progressEmit).countP UpEffect.isPost = 0 := by
  rw [List.countP_map]
  exact List.countP_eq_zero.mpr (fun a _ => by simp [Function.comp, UpEffect.isPost])

/-! ## Concrete fixtures used by witness theorems -/

def wCredValid : Credential := ⟨"tok", some "rt", false⟩

def wAuthOk : AuthEnv := ⟨some wCredValid, true, none, none, none⟩

def wUploadOkEnv : UploadEnv :=
  ⟨fun _ => true, wAuthOk, [some 40, some 100], ChunkOutcome.finalResponse [("id", "abc123")]⟩

def wUploadNoIdEnv : UploadEnv :=
  ⟨fun _ => true, wAuthOk, [some 40], ChunkOutcome.finalResponse [("kind", "video")]⟩

def wParamsSched : UploadParams :=
  ⟨"f.mp4", "T", "", none, "22", "public", none, none, some "2025-01-31T10:00:00Z", none⟩

def wParamsNoSched : UploadParams :=
  ⟨"f.mp4", "T", "", none, "22", "unlisted", none, none, none, none⟩

/-! ## Claim theorems -/

/-- C1: whenever `upload_video` sends an insert request, a truthy
`publish_at` together with a `privacy_status` other than `"private"`
(including `"public"`) yields a status body with `privacyStatus =
"private"` and `publishAt` equal to the given timestamp, while an absent
(falsy) `publish_at` passes `privacyStatus` through unchanged. -/
theorem C1_scheduled_privacy_forced_private
    (env env2 : UploadEnv) (p p2 : UploadParams) (s : String) (b b2 : Body)
    (h1 : p.publish_at = some s) (h2 : s.isEmpty = false)
    (h3 : p.privacy_status ≠ "private")
    (h4 : UpEffect.insertRequest b ∈ (upload_video env p).2)
    (h5 : optTruthy p2.publish_at = false)
    (h6 : UpEffect.insertRequest b2 ∈ (upload_video env2 p2).2) :
    (b.status.privacyStatus = "private" ∧ b.status.publishAt = some s) ∧
      b2.status.privacyStatus = p2.privacy_status := by
  have e1 := insertRequest_mem env p b h4
  have e2 := insertRequest_mem env2 p2 b2 h6
  subst e1; subst e2
  constructor
  · cases hmk : p.made_for_kids <;>
      simp [uploadBody, buildStatus, h1, h2, h3, hmk]
  · cases hp2 : p2.publish_at with
    | none => cases hmk : p2.made_for_kids <;> simp [uploadBody, buildStatus, hp2, hmk]
    | some s2 =>
      have hs2 : s2.isEmpty = true := by
        rw [hp2] at h5; simpa [optTruthy] using h5
      cases hmk : p2.made_for_kids <;>
        simp [uploadBody, buildStatus, hp2, hs2, hmk]

/-- C1 witness: a concrete scheduled upload (`privacy_status = "public"`,
`publish_at = "2025-01-31T10:00:00Z"`) sends `privacyStatus = "private"`
with that timestamp, and a concrete unscheduled upload passes
`"unlisted"` through. -/
theorem C1_witness :
    ((uploadBody wParamsSched).status.privacyStatus = "private" ∧
      (uploadBody wParamsSched).status.publishAt = some "2025-01-31T10:00:00Z") ∧
      (uploadBody wParamsNoSched).status.privacyStatus = "unlisted" :=
  C1_scheduled_privacy_forced_private wUploadOkEnv wUploadOkEnv wParamsSched wParamsNoSched
    "2025-01-31T10:00:00Z" (uploadBody wParamsSched) (uploadBody wParamsNoSched)
    rfl (by decide) (by decide) (by decide) rfl (by decide)

/-- C2: when the chunk loop's terminal response lacks the `"id"` key,
`upload_video` fails with the protocol error (never a default video id)
and neither the thumbnail call nor the playlist call appears in the
trace. -/
theorem C2_missing_id_protocol_error (env : UploadEnv) (p : UploadParams)
    (cred : Credential) (atr : List AuthEffect) (resp : List (String × String))
    (hf : env.fileExists p.file_path = true)
    (hgs : get_service env.auth = (Except.ok cred, atr))
    (hco : env.chunkOutcome = ChunkOutcome.finalResponse resp)
    (hid : lookupKey "id" resp = none) :
    (upload_video env p).1 = Except.error (UpError.protocol resp) ∧
      (upload_video env p).2.countP UpEffect.isPost = 0 := by
  constructor
  · simp [upload_video, hf, hgs, hco, hid]
  · simp [upload_video, hf, hgs, hco, hid, List.countP_append, List.countP_cons,
      countP_isPost_auth, countP_isPost_emit, UpEffect.isPost]

/-- C2 witness: a terminal response `{"kind": "video"}` without `"id"`
makes the concrete upload fail with the protocol error and perform no
post-upload call, even though both a thumbnail and a playlist id could
have been given. -/
theorem C2_witness :
    (upload_video wUploadNoIdEnv wParamsNoSched).1 =
        Except.error (UpError.protocol [("kind", "video")]) ∧
      (upload_video wUploadNoIdEnv wParamsNoSched).2.countP UpEffect.isPost = 0 :=
  C2_missing_id_protocol_error wUploadNoIdEnv wParamsNoSched wCredValid
    [AuthEffect.loadToken] [("kind", "video")] rfl rfl rfl rfl

/-- C3: a missing video file makes `upload_video` raise
`FileNotFoundError` with an empty effect trace: `get_service` is never
invoked, so there are zero credential-store reads, zero authorization
calls and zero upload calls. -/
theorem C3_missing_file_no_effects (env : UploadEnv) (p : UploadParams)
    (h : env.fileExists p.file_path = false) :
    upload_video env p =
      (Except.error (UpError.fileNotFound ("Video file not found: " ++ p.file_path)), []) := by
  simp [upload_video, h]

/-- C3 witness: a concrete call with a nonexistent file fails with
`FileNotFoundError` and an empty trace. -/
theorem C3_witness :
    upload_video ⟨fun _ => false, wAuthOk, [], ChunkOutcome.raiseHttp ""⟩
      ⟨"missing.mp4", "T", "", none, "22", "unlisted", none, none, none, none⟩ =
      (Except.error (UpError.fileNotFound "Video file not found: missing.mp4"), []) :=
  C3_missing_file_no_effects _ _ rfl

/-- C4: with an empty token store and no client-secrets file,
`get_service` raises the fatal configuration error after only the store
read: no refresh call and no interactive flow appears in the trace. -/
theorem C4_missing_secrets_config_error (env : AuthEnv)
    (h1 : env.storedToken = none) (h2 : env.secretsExists = false) :
    get_service env =
      (Except.error AuthError.missingClientSecrets, [AuthEffect.loadToken]) := by
  simp [get_service, firstBlock, secondBlock, authFlowBranch, h1, h2]

/-- C4 witness: the concrete empty-store, no-secrets environment. -/
theorem C4_witness :
    get_service ⟨none, false, none, none, none⟩ =
      (Except.error AuthError.missingClientSecrets, [AuthEffect.loadToken]) :=
  C4_missing_secrets_config_error ⟨none, false, none, none, none⟩ rfl rfl

/-- C5: for every sequence of chunk acknowledgments, the sequence of
emitted progress percentages is strictly increasing (hence non-decreasing
and free of consecutive duplicates); the loop emits only when the integer
percentage exceeds the last emitted value. -/
theorem C5_progress_strictly_increasing (acks : List (Option Nat)) :
    List.Pairwise (· < ·) (uploadLoop acks 0) :=
  List.chain'_iff_pairwise.mp (uploadLoop_chain acks 0)

/-- C10: in `main`'s `pick` resolution a key present in the metadata file
always wins over the command-line flag, the flag being used only when the
metadata file omits the key; concretely, a user-supplied `--title` flag is
silently ignored when the metadata file also carries a title. -/
theorem C10_metadata_precedence :
    (∀ (mv : String) (av : Option String), pick (some mv) av = some mv) ∧
      (∀ av : Option String, pick none av = av) ∧
      (∀ mv av : String, pickStr (some mv) av = mv) ∧
      (∀ av : String, pickStr none av = av) ∧
      (resolveFields { emptyMeta with title := some "meta-title" }
        ⟨some "v.mp4", some "flag-title", "", "", "22", "unlisted", none, none, none,
          false, none⟩).title = some "meta-title" :=
  ⟨fun _ _ => rfl, fun _ => rfl, fun _ _ => rfl, fun _ => rfl, rfl⟩

/-- C6: a stored credential is returned unchanged with no effect beyond
the store read (no refresh, no re-authorization, no store write) if and
only if it is not expired; an expired credential never passes through
untouched. -/
theorem C6_valid_credential_passthrough_iff (env : AuthEnv) (c : Credential)
    (h : env.storedToken = some c) :
    ((get_service env).1 = Except.ok c ∧
        (get_service env).2 = [AuthEffect.loadToken]) ↔
      c.expired = false := by
  constructor
  · rintro ⟨hres, htr⟩
    cases hexp : c.expired with
    | false => rfl
    | true =>
      exfalso
      cases hrt : optTruthy c.refreshToken with
      | true =>
        cases hro : env.refreshOutcome with
        | some c1 =>
          simp [get_service, firstBlock, secondBlock, h, hexp, hrt, hro] at htr
        | none =>
          simp [get_service, firstBlock, secondBlock, h, hexp, hrt, hro] at htr
      | false =>
        cases hse : env.secretsExists with
        | false =>
          simp [get_service, firstBlock, secondBlock, authFlowBranch,
            Credential.valid, h, hexp, hrt, hse] at hres
        | true =>
          cases hls : env.localServerOutcome with
          | some c1 =>
            simp [get_service, firstBlock, secondBlock, authFlowBranch,
              Credential.valid, h, hexp, hrt, hse, hls] at htr
          | none =>
            cases hco : env.consoleOutcome with
            | some c1 =>
              simp [get_service, firstBlock, secondBlock, authFlowBranch,
                Credential.valid, h, hexp, hrt, hse, hls, hco] at htr
            | none =>
              simp [get_service, firstBlock, secondBlock, authFlowBranch,
                Credential.valid, h, hexp, hrt, hse, hls, hco] at htr
  · intro hexp
    constructor <;>
      simp [get_service, firstBlock, secondBlock, Credential.valid, h, hexp]

/-- C6 witness: a concrete stored, unexpired credential passes through
with only the store read in the trace. -/
theorem C6_witness :
    (get_service wAuthOk).1 = Except.ok wCredValid ∧
      (get_service wAuthOk).2 = [AuthEffect.loadToken] :=
  (C6_valid_credential_passthrough_iff wAuthOk wCredValid rfl).mpr rfl

/-- C7: with a stored expired credential whose refresh fails, the call
performs exactly one refresh attempt and falls through to the interactive
flow exactly once (at most one local-server and one console attempt, and
exactly one local-server attempt whenever the client secrets exist). -/
theorem C7_refresh_fail_single_fallback (env : AuthEnv) (c : Credential)
    (h : env.storedToken = some c) (hexp : c.expired = true)
    (hrt : optTruthy c.refreshToken = true) (hro : env.refreshOutcome = none) :
    ((get_service env).2.countP AuthEffect.isRefresh = 1 ∧
        (get_service env).2.countP AuthEffect.isLocalFlow ≤ 1 ∧
        (get_service env).2.countP AuthEffect.isConsoleFlow ≤ 1) ∧
      (env.secretsExists = true →
        (get_service env).2.countP AuthEffect.isLocalFlow = 1) := by
  cases hse : env.secretsExists with
  | false =>
    simp [get_service, firstBlock, secondBlock, authFlowBranch, h, hexp, hrt, hro, hse,
      List.countP_cons, AuthEffect.isRefresh, AuthEffect.isLocalFlow,
      AuthEffect.isConsoleFlow]
  | true =>
    cases hls : env.localServerOutcome with
    | some c1 =>
      simp [get_service, firstBlock, secondBlock, authFlowBranch, h, hexp, hrt, hro, hse,
        hls, List.countP_cons, AuthEffect.isRefresh, AuthEffect.isLocalFlow,
        AuthEffect.isConsoleFlow, AuthEffect.isSave]
    | none =>
      cases hco : env.consoleOutcome with
      | some c1 =>
        simp [get_service, firstBlock, secondBlock, authFlowBranch, h, hexp, hrt, hro,
          hse, hls, hco, List.countP_cons, AuthEffect.isRefresh, AuthEffect.isLocalFlow,
          AuthEffect.isConsoleFlow, AuthEffect.isSave]
      | none =>
        simp [get_service, firstBlock, secondBlock, authFlowBranch, h, hexp, hrt, hro,
          hse, hls, hco, List.countP_cons, AuthEffect.isRefresh, AuthEffect.isLocalFlow,
          AuthEffect.isConsoleFlow, AuthEffect.isSave]

def wAuthRefreshFail : AuthEnv :=
  ⟨some ⟨"tok", some "rt", true⟩, true, none, some ⟨"new", none, false⟩, none⟩

/-- C7 witness: a concrete expired credential whose refresh raises leads
to one refresh call and one local-server flow attempt. -/
theorem C7_witness :
    ((get_service wAuthRefreshFail).2.countP AuthEffect.isRefresh = 1 ∧
        (get_service wAuthRefreshFail).2.countP AuthEffect.isLocalFlow ≤ 1 ∧
        (get_service wAuthRefreshFail).2.countP AuthEffect.isConsoleFlow ≤ 1) ∧
      (wAuthRefreshFail.secretsExists = true →
        (get_service wAuthRefreshFail).2.countP AuthEffect.isLocalFlow = 1) :=
  C7_refresh_fail_single_fallback wAuthRefreshFail ⟨"tok", some "rt", true⟩
    rfl rfl rfl rfl

/-- C8: provided a successful refresh yields an unexpired credential (the
authorization-server contract), a `get_service` call writes the token
store at most once, and a call that returns a still-valid stored
credential writes it not at all. -/
theorem C8_at_most_one_save (env : AuthEnv)
    (href : ∀ c1, env.refreshOutcome = some c1 → c1.expired = false) :
    (get_service env).2.countP AuthEffect.isSave ≤ 1 ∧
      (∀ c, env.storedToken = some c → c.expired = false →
        (get_service env).2.countP AuthEffect.isSave = 0) := by
  have flowCount : ∀ tr, tr = (authFlowBranch env).2 →
      tr.countP AuthEffect.isSave ≤ 1 := by
    intro tr htr
    cases hse : env.secretsExists with
    | false => simp [authFlowBranch, hse] at htr; simp [htr]
    | true =>
      cases hls : env.localServerOutcome with
      | some c1 =>
        simp [authFlowBranch, hse, hls] at htr
        simp [htr, List.countP_cons, AuthEffect.isSave]
      | none =>
        cases hco : env.consoleOutcome with
        | some c1 =>
          simp [authFlowBranch, hse, hls, hco] at htr
          simp [htr, List.countP_cons, AuthEffect.isSave]
        | none =>
          simp [authFlowBranch, hse, hls, hco] at htr
          simp [htr, List.countP_cons, AuthEffect.isSave]
  cases hst : env.storedToken with
  | none =>
    refine ⟨?_, by intro c hc; simp [hst] at hc⟩
    have : (get_service env).2 = AuthEffect.loadToken :: (authFlowBranch env).2 := by
      simp [get_service, firstBlock, secondBlock, hst]
    rw [this, List.countP_cons]
    have h1 := flowCount (authFlowBranch env).2 rfl
    simp [AuthEffect.isSave]
    omega
  | some c =>
    cases hexp : c.expired with
    | false =>
      have htr : (get_service env).2 = [AuthEffect.loadToken] := by
        simp [get_service, firstBlock, secondBlock, Credential.valid, hst, hexp]
      refine ⟨by simp [htr, List.countP_cons, AuthEffect.isSave], ?_⟩
      intro c' hc' _
      simp [htr, List.countP_cons, AuthEffect.isSave]
    | true =>
      refine ⟨?_, ?_⟩
      · cases hrt : optTruthy c.refreshToken with
        | true =>
          cases hro : env.refreshOutcome with
          | some c1 =>
            have hv : c1.valid = true := by
              simp [Credential.valid, href c1 hro]
            have htr : (get_service env).2 =
                [AuthEffect.loadToken, AuthEffect.refreshCall, AuthEffect.saveToken c1] := by
              simp [get_service, firstBlock, secondBlock, hst, hexp, hrt, hro, hv]
            simp [htr, List.countP_cons, AuthEffect.isSave]
          | none =>
            have htr : (get_service env).2 =
                AuthEffect.loadToken :: AuthEffect.refreshCall :: (authFlowBranch env).2 := by
              simp [get_service, firstBlock, secondBlock, hst, hexp, hrt, hro]
            rw [htr, List.countP_cons, List.countP_cons]
            have h1 := flowCount (authFlowBranch env).2 rfl
            simp [AuthEffect.isSave]
            omega
        | false =>
          have htr : (get_service env).2 =
              AuthEffect.loadToken :: (authFlowBranch env).2 := by
            simp [get_service, firstBlock, secondBlock, Credential.valid, hst, hexp, hrt]
          rw [htr, List.countP_cons]
          have h1 := flowCount (authFlowBranch env).2 rfl
          simp [AuthEffect.isSave]
          omega
      · intro c' hc' hc'exp
        exfalso
        obtain rfl : c = c' := by injection hc'
        rw [hexp] at hc'exp
        exact Bool.noConfusion hc'exp

/-- C8 witness: with a stored valid credential (and no refresh outcome at
all) the call performs zero store writes, satisfying the at-most-once
bound. -/
theorem C8_witness :
    (get_service wAuthOk).2.countP AuthEffect.isSave ≤ 1 ∧
      (∀ c, wAuthOk.storedToken = some c → c.expired = false →
        (get_service wAuthOk).2.countP AuthEffect.isSave = 0) :=
  C8_at_most_one_save wAuthOk (fun _ h => nomatch h)

def cNoNetEnv : MainEnv :=
  ⟨⟨fun _ => true, wAuthOk, [], ChunkOutcome.finalResponse [("id", "abc123")]⟩,
    Except.ok emptyMeta, 0⟩

def cHttpErrEnv : MainEnv :=
  ⟨⟨fun _ => true, wAuthOk, [], ChunkOutcome.raiseHttp "503"⟩, Except.ok emptyMeta, 0⟩

def cBadPublishArgs : Args :=
  ⟨some "v.mp4", some "T", "", "", "22", "unlisted", none, none, some "garbage",
    false, none⟩

def cMissingTitleArgs : Args :=
  ⟨some "v.mp4", none, "", "", "22", "unlisted", none, none, none, false, none⟩

def cOkArgs : Args :=
  ⟨some "v.mp4", some "T", "", "", "22", "unlisted", none, none, none, false, none⟩

/-- C9 counterexample: with file and title supplied but a malformed
`publish_at` of `"garbage"`, `main` does not exit with code 2 — the
`_parse_publish_at` call sits outside the `try` block, so the
`ValueError` escapes uncaught and the process aborts with a traceback. -/
theorem C9_counterexample :
    main' cNoNetEnv cBadPublishArgs =
        MainOutcome.uncaught (PyExc.valueError publishAtErrMsg) ∧
      main' cNoNetEnv cBadPublishArgs ≠ MainOutcome.exitCode 2 := by
  constructor
  · rfl
  · decide

/-- C9 (amended): `main` exits with code 2 when the resolved `file` or
`title` is falsy, and exits with code 1 when `upload_video` reports an
`HttpError`; but a malformed `publish_at` timestamp does not map to exit
code 2 — it raises an uncaught `ValueError` (terminating the process with
a traceback), because the parse happens outside the `try` that guards the
upload call. -/
theorem C9_amended_exit_codes
    (e1 e2 e3 : MainEnv) (a1 a2 a3 : Args) (m1 m2 m3 : MetaDict)
    (pa : Option String) (msg : String) (exc : PyExc)
    (hm1 : mainMeta e1 a1 = Except.ok m1)
    (hmiss : optTruthy (resolveFields m1 a1).file = false ∨
      optTruthy (resolveFields m1 a1).title = false)
    (hm2 : mainMeta e2 a2 = Except.ok m2)
    (hf2 : optTruthy (resolveFields m2 a2).file = true)
    (ht2 : optTruthy (resolveFields m2 a2).title = true)
    (hp2 : resolvePublish e2.localOffset (resolveFields m2 a2).publish_at =
      Except.ok pa)
    (hu2 : (upload_video e2.upload (mainParams (resolveFields m2 a2) pa)).1 =
      Except.error (UpError.http msg))
    (hm3 : mainMeta e3 a3 = Except.ok m3)
    (hf3 : optTruthy (resolveFields m3 a3).file = true)
    (ht3 : optTruthy (resolveFields m3 a3).title = true)
    (hp3 : resolvePublish e3.localOffset (resolveFields m3 a3).publish_at =
      Except.error exc) :
    main' e1 a1 = MainOutcome.exitCode 2 ∧
      main' e2 a2 = MainOutcome.exitCode 1 ∧
      main' e3 a3 = MainOutcome.uncaught exc := by
  refine ⟨?_, ?_, ?_⟩
  · rcases hmiss with hm | hm <;> simp [main', hm1, hm]
  · simp [main', hm2, hf2, ht2, hp2, hu2]
  · simp [main', hm3, hf3, ht3, hp3]

/-- C9 witness: concretely, a missing `--title` exits 2, an `HttpError`
from the upload exits 1, and the malformed `publish_at` input aborts with
an uncaught `ValueError`. -/
theorem C9_witness :
    main' cNoNetEnv cMissingTitleArgs = MainOutcome.exitCode 2 ∧
      main' cHttpErrEnv cOkArgs = MainOutcome.exitCode 1 ∧
      main' cNoNetEnv cBadPublishArgs =
        MainOutcome.uncaught (PyExc.valueError publishAtErrMsg) :=
  C9_amended_exit_codes cNoNetEnv cHttpErrEnv cNoNetEnv cMissingTitleArgs cOkArgs
    cBadPublishArgs emptyMeta emptyMeta emptyMeta none "503"
    (PyExc.valueError publishAtErrMsg) rfl (Or.inr rfl) rfl rfl rfl rfl rfl rfl rfl
    rfl rfl
